import Mathlib

/-
Verification of the Heimdall order-dashboard backend (src/app.py, src/config.py).

The Flask handlers are shallowly embedded as pure Lean functions. The
relational datastore is modelled as a list of order rows, and the SQL
statements the code builds are given their standard semantics (filter,
sort, take, aggregate) over that list. The JSON configuration store is
modelled at the JSON-value level: the composition json.dump then json.load
is the identity on JSON values, so a file is represented by the JSON value
it holds. The Python json.loads call that the save handler applies to
string-typed content is embedded as a recursive-descent JSON parser; its
number grammar is restricted to integers, since floating point is outside
the scope of this development.
-/

namespace Heimdall

/-- Python truthiness of an optional string, as in `if account:` applied to
`request.args.get(...)`: absent and empty strings are falsy. -/
def truthyS : Option String → Bool
  | none => false
  | some s => !(s == "")

/-- Request-scoped filter selection for the orders listing and stats
endpoints: optional account, optional date, repeated symbol and status
parameters (from `request.args.get` and `request.args.getlist`). -/
structure Filters where
  account : Option String
  date : Option String
  symbols : List String
  statuses : List String

/-- The placeholder list `','.join(['%s'] * n)` used for IN clauses. -/
def placeholders (n : Nat) : String :=
  String.intercalate "," (List.replicate n "%s")

/-- The fixed SELECT prefix of the orders query from `get_orders`, with the
schema name `Config.DB_SCHEMA = "Orders"` interpolated as in the source
f-string (insignificant SQL whitespace is collapsed to single spaces). -/
def ordersBaseQuery : String :=
  "SELECT order_id, symbol, exchange, transaction_type, price, qty, status, order_type, product_type, order_time, remarks, spl_remarks, rejection_reason, account, created_at, exit_time, total_order_time FROM \"Orders\".shoonya_orders WHERE 1=1"

/-- The query builder of `get_orders`: starting from the base query it
appends one clause per present filter (Python truthiness for the scalar
filters, nonemptiness for the list filters) and appends each supplied value
to the ordered bind-parameter list; finally it appends the ORDER BY and
LIMIT suffix. The successive `+=` and `append`/`extend` calls of the source
are written as one concatenation per component. -/
def ordersQuery (f : Filters) : String × List String :=
  (ordersBaseQuery
      ++ (if truthyS f.account then " AND account = %s" else "")
      ++ (if truthyS f.date then " AND DATE(created_at) = %s" else "")
      ++ (if f.symbols.isEmpty then "" else
            " AND symbol IN (" ++ placeholders f.symbols.length ++ ")")
      ++ (if f.statuses.isEmpty then "" else
            " AND status IN (" ++ placeholders f.statuses.length ++ ")")
      ++ " ORDER BY order_id ASC LIMIT 500",
   (if truthyS f.account then [f.account.getD ""] else [])
      ++ (if truthyS f.date then [f.date.getD ""] else [])
      ++ (if f.symbols.isEmpty then [] else f.symbols)
      ++ (if f.statuses.isEmpty then [] else f.statuses))

/-- Python values that can appear in a fetched row, as far as the result
normalizer distinguishes them: None, strings, integers, `datetime.date`,
`datetime.datetime` (microseconds omitted from the model), and
`datetime.timedelta` (stored as total microseconds). -/
inductive PyValue where
  | vNone
  | vStr (s : String)
  | vInt (n : Int)
  | vDate (y m d : Nat)
  | vDatetime (y mo d h mi s : Nat)
  | vDelta (micros : Int)
deriving DecidableEq

/-- One row of the `shoonya_orders` table, with the columns the embedded
queries filter, sort and aggregate on held as typed fields. `createdDate`
is the calendar date `DATE(created_at)` in its textual form, compared
against the bound date parameter. `row` is the full column-name-to-value
mapping fetched by the RealDictCursor and returned to the client. -/
structure Order where
  order_id : Nat
  symbol : String
  account : String
  status : String
  transaction_type : String
  createdDate : String
  row : List (String × PyValue)

/-- The WHERE clause built by `get_orders` and `get_stats`, under standard
SQL semantics: each present filter constrains the row, absent filters do
not; the IN clauses are set membership. -/
def rowMatches (f : Filters) (r : Order) : Bool :=
  (if truthyS f.account then r.account == f.account.getD "" else true)
    && (if truthyS f.date then r.createdDate == f.date.getD "" else true)
    && (if f.symbols.isEmpty then true else f.symbols.contains r.symbol)
    && (if f.statuses.isEmpty then true else f.statuses.contains r.status)

/-- Datastore semantics of the statement built by `ordersQuery`: rows
satisfying the WHERE clause, ordered by order_id ascending, truncated by
LIMIT 500. -/
def runOrdersQuery (db : List Order) (f : Filters) : List Order :=
  (((db.filter (rowMatches f)).mergeSort
      (fun a b => decide (a.order_id ≤ b.order_id))).take 500)

/-- Python truthiness of a fetched value: a zero timedelta is falsy, dates
and datetimes are always truthy, None is falsy. -/
def pyTruthy : PyValue → Bool
  | .vNone => false
  | .vStr s => !(s == "")
  | .vInt n => !(n == 0)
  | .vDate _ _ _ => true
  | .vDatetime _ _ _ _ _ _ => true
  | .vDelta micros => !(micros == 0)

/-- The `isinstance(value, (datetime, date))` test of the normalizer. -/
def isDateOrDatetime : PyValue → Bool
  | .vDate _ _ _ => true
  | .vDatetime _ _ _ _ _ _ => true
  | _ => false

/-- The duck-typing test `hasattr(value, 'total_seconds')` of the
normalizer: among the modelled values only timedelta has that attribute. -/
def hasTotalSeconds : PyValue → Bool
  | .vDelta _ => true
  | _ => false

/-- Left-pad a decimal rendering with zeros to the given width, as the
%0Nd conversions of the Python datetime formatting do. -/
def padZ (w : Nat) (n : Nat) : String :=
  let s := toString n
  String.mk (List.replicate (w - s.length) (Char.ofNat 48)) ++ s

/-- ISO-8601 form of a date, `date.isoformat()`: YYYY-MM-DD. -/
def isoDate (y m d : Nat) : String :=
  padZ 4 y ++ "-" ++ padZ 2 m ++ "-" ++ padZ 2 d

/-- ISO-8601 form of a datetime without microseconds,
`datetime.isoformat()`: YYYY-MM-DDTHH:MM:SS. -/
def isoDatetime (y mo d h mi s : Nat) : String :=
  isoDate y mo d ++ "T" ++ padZ 2 h ++ ":" ++ padZ 2 mi ++ ":" ++ padZ 2 s

/-- Textual form of a timedelta, `str(value)`: an optional signed day
count, then H:MM:SS, then the microsecond fraction when nonzero, as in the
CPython `timedelta.__str__` normalization (days may be negative, the
remaining fields are the nonnegative remainder). -/
def deltaStr (micros : Int) : String :=
  let days : Int := micros.ediv 86400000000
  let rem : Nat := (micros.emod 86400000000).toNat
  let secs : Nat := rem / 1000000
  let us : Nat := rem % 1000000
  let hh : Nat := secs / 3600
  let mm : Nat := (secs % 3600) / 60
  let ss : Nat := secs % 60
  let base : String := toString hh ++ ":" ++ padZ 2 mm ++ ":" ++ padZ 2 ss
  let base : String :=
    if days == 0 then base
    else toString days ++ " day" ++ (if days == 1 || days == -1 then "" else "s") ++ ", " ++ base
  if us == 0 then base else base ++ "." ++ padZ 6 us

/-- String rendering applied by the normalizer in its two branches:
isoformat for dates and datetimes, str for timedeltas. -/
def pyTextOf : PyValue → String
  | .vDate y m d => isoDate y m d
  | .vDatetime y mo d h mi s => isoDatetime y mo d h mi s
  | .vDelta micros => deltaStr micros
  | .vStr s => s
  | .vInt n => toString n
  | .vNone => "None"

/-- The per-value result normalizer of `get_orders`: date and datetime
values become their isoformat if truthy else None, values with a
total_seconds attribute become str of the value if truthy else None, and
every other value is left unchanged. -/
def normalizeValue (v : PyValue) : PyValue :=
  if isDateOrDatetime v then
    (if pyTruthy v then .vStr (pyTextOf v) else .vNone)
  else if hasTotalSeconds v then
    (if pyTruthy v then .vStr (pyTextOf v) else .vNone)
  else v

/-- Per-record application of the normalizer: the source mutates each value
of the row mapping in place. -/
def normalizeRecord (r : List (String × PyValue)) : List (String × PyValue) :=
  r.map (fun kv => (kv.1, normalizeValue kv.2))

/-- The orders listing endpoint `get_orders`: run the built query against
the datastore and normalize each fetched record. -/
def get_orders (db : List Order) (f : Filters) : List (List (String × PyValue)) :=
  (runOrdersQuery db f).map (fun r => normalizeRecord r.row)

/-- One row of the aggregate SELECT built by `get_stats`. -/
structure StatsRow where
  total_orders : Nat
  buy_orders : Nat
  sell_orders : Nat
  completed : Nat
  rejected : Nat
  unique_symbols : Nat
deriving DecidableEq

/-- Datastore semantics of the aggregate statement built by `get_stats`:
an aggregate query without GROUP BY always yields exactly one row, whose
COUNT columns count the matching rows (conditional counts via CASE WHEN)
and whose COUNT DISTINCT column counts the distinct symbols. -/
def statsAggregate (db : List Order) (f : Filters) : StatsRow :=
  let m := db.filter (rowMatches f)
  { total_orders := m.length
    buy_orders := m.countP (fun r => r.transaction_type == "B")
    sell_orders := m.countP (fun r => r.transaction_type == "S")
    completed := m.countP (fun r => r.status == "COMPLETE")
    rejected := m.countP (fun r => r.status == "REJECTED")
    unique_symbols := (m.map (fun r => r.symbol)).dedup.length }

/-- Body of the stats response: the single aggregate row, or the empty
object from the `stats[0] if stats else` fallback. -/
inductive StatsResponse where
  | emptyObj
  | row (r : StatsRow)
deriving DecidableEq

/-- The stats endpoint `get_stats`: execute the aggregate query and return
its first row, or an empty object when the fetch yields no row at all. -/
def get_stats (db : List Order) (f : Filters) : StatsResponse :=
  let stats := [statsAggregate db f]
  match stats with
  | [] => .emptyObj
  | r :: _ => .row r

/-- Response of the option-listing endpoints together with the list of
statements the handler issued to the datastore (statement text with its
bind parameters), so that absence of datastore access is expressible. -/
structure ListOut where
  status : Nat
  body : List String
  queries : List (String × List String)
deriving DecidableEq

/-- Text of the statement built by `get_dates` (whitespace collapsed). -/
def datesQueryText : String :=
  "SELECT DISTINCT DATE(created_at) as order_date FROM \"Orders\".shoonya_orders WHERE account = %s ORDER BY order_date DESC"

/-- The dates endpoint `get_dates`: with no truthy account it returns an
empty JSON list with status 200 before any datastore access; otherwise it
selects the distinct creation dates of the account, descending. -/
def get_dates (db : List Order) (account : Option String) : ListOut :=
  if !truthyS account then ⟨200, [], []⟩
  else
    let a := account.getD ""
    let rows :=
      (((db.filter (fun r => r.account == a)).map (fun r => r.createdDate)).dedup).mergeSort
        (fun x y => decide (y ≤ x))
    ⟨200, rows, [(datesQueryText, [a])]⟩

/-- Fixed prefix of the statement built by `get_symbols`. -/
def symbolsQueryBase : String :=
  "SELECT DISTINCT symbol FROM \"Orders\".shoonya_orders WHERE account = %s"

/-- The symbols endpoint `get_symbols`: with no truthy account it returns
an empty JSON list with status 200 before any datastore access; otherwise
it selects the distinct symbols of the account, optionally narrowed to one
creation date, ascending. -/
def get_symbols (db : List Order) (account orderDate : Option String) : ListOut :=
  if !truthyS account then ⟨200, [], []⟩
  else
    let a := account.getD ""
    let q := symbolsQueryBase
      ++ (if truthyS orderDate then " AND DATE(created_at) = %s" else "")
      ++ " ORDER BY symbol"
    let ps := [a] ++ (if truthyS orderDate then [orderDate.getD ""] else [])
    let keep := fun r => r.account == a
      && (if truthyS orderDate then r.createdDate == orderDate.getD "" else true)
    let rows :=
      (((db.filter keep).map (fun r => r.symbol)).dedup).mergeSort
        (fun x y => decide (x ≤ y))
    ⟨200, rows, [(q, ps)]⟩

/-- JSON values as handled by the config editor endpoints. Numbers are
restricted to integers in this model; floating point is out of scope. -/
inductive Json where
  | null
  | bool (b : Bool)
  | num (n : Int)
  | str (s : String)
  | arr (elems : List Json)
  | obj (fields : List (String × Json))

/-- Whitespace skipping of the JSON grammar. -/
def skipWs : List Char → List Char
  | c :: cs =>
    if c == ' ' || c == '\t' || c == '\n' || c == '\r' then skipWs cs else c :: cs
  | [] => []

/-- Value of a hexadecimal digit. -/
def hexVal (c : Char) : Option Nat :=
  if '0' ≤ c && c ≤ '9' then some (c.toNat - 48)
  else if 'a' ≤ c && c ≤ 'f' then some (c.toNat - 87)
  else if 'A' ≤ c && c ≤ 'F' then some (c.toNat - 70)
  else none

/-- Table of the single-character JSON string escapes: each escape letter
with the character it denotes. -/
def escTable : List (Char × Char) :=
  [('"', '"'), ('\\', '\\'), ('/', '/'),
   ('b', Char.ofNat 8), ('f', Char.ofNat 12),
   ('n', Char.ofNat 10), ('r', Char.ofNat 13), ('t', Char.ofNat 9)]

/-- Single-character JSON string escapes, by table lookup. -/
def escChar (c : Char) : Option Char :=
  (escTable.find? (fun pc => pc.1 == c)).map (fun pc => pc.2)

/-- Body of a JSON string after the opening quote: returns the decoded
characters and the input after the closing quote. Unescaped control
characters are rejected as in strict-mode json.loads; a \u escape decodes
its four hex digits (surrogate-pair recombination is not modelled). -/
def parseStrAux : List Char → Option (List Char × List Char)
  | [] => none
  | c :: cs =>
    if c == '"' then some ([], cs)
    else if c == '\\' then
      match cs with
      | [] => none
      | e :: cs2 =>
        if e == 'u' then
          match cs2 with
          | h1 :: h2 :: h3 :: h4 :: cs3 =>
            match hexVal h1, hexVal h2, hexVal h3, hexVal h4 with
            | some a, some b, some c2, some d =>
              match parseStrAux cs3 with
              | some (tail, rest) =>
                some (Char.ofNat (((a * 16 + b) * 16 + c2) * 16 + d) :: tail, rest)
              | none => none
            | _, _, _, _ => none
          | _ => none
        else
          match escChar e with
          | some dec =>
            match parseStrAux cs2 with
            | some (tail, rest) => some (dec :: tail, rest)
            | none => none
          | none => none
    else if c.toNat < 32 then none
    else
      match parseStrAux cs with
      | some (tail, rest) => some (c :: tail, rest)
      | none => none

/-- Longest leading run of decimal digits. -/
def digitsSpan : List Char → List Char × List Char
  | [] => ([], [])
  | c :: cs =>
    if c.isDigit then
      let p := digitsSpan cs
      (c :: p.1, p.2)
    else ([], c :: cs)

/-- Decimal value of a digit run. -/
def natOfDigits (ds : List Char) : Nat :=
  ds.foldl (fun a c => a * 10 + (c.toNat - 48)) 0

/-- Integer literal of the JSON grammar: optional minus sign, no leading
zero on a multi-digit number. -/
def parseNum (cs : List Char) : Option (Json × List Char) :=
  let p := match cs with
    | c :: r => if c == '-' then (true, r) else (false, cs)
    | [] => (false, cs)
  match p.2 with
  | [] => none
  | c :: _ =>
    if !c.isDigit then none
    else
      let q := digitsSpan p.2
      match q.1 with
      | '0' :: _ :: _ => none
      | _ =>
        let n : Int := Int.ofNat (natOfDigits q.1)
        some (.num (if p.1 then -n else n), q.2)

mutual

/-- Recursive-descent parser for one JSON value, fuel-bounded; returns the
value and the unconsumed input. Embeds the grammar accepted by the
json.loads call of the save handler, restricted to integer numbers. -/
def parseVal : Nat → List Char → Option (Json × List Char)
  | 0, _ => none
  | fuel + 1, cs =>
    match skipWs cs with
    | 'n' :: 'u' :: 'l' :: 'l' :: rest => some (.null, rest)
    | 't' :: 'r' :: 'u' :: 'e' :: rest => some (.bool true, rest)
    | 'f' :: 'a' :: 'l' :: 's' :: 'e' :: rest => some (.bool false, rest)
    | '"' :: rest =>
      match parseStrAux rest with
      | some (chars, rest2) => some (.str (String.mk chars), rest2)
      | none => none
    | '[' :: rest =>
      match parseArrRest fuel (skipWs rest) with
      | some (vs, rest2) => some (.arr vs, rest2)
      | none => none
    | '\x7b' :: rest =>
      match parseObjRest fuel (skipWs rest) with
      | some (kvs, rest2) => some (.obj kvs, rest2)
      | none => none
    | other => parseNum other

/-- Array elements after the opening bracket (leading whitespace already
skipped): an immediate close or the first element and its continuation. -/
def parseArrRest : Nat → List Char → Option (List Json × List Char)
  | 0, _ => none
  | fuel + 1, cs =>
    match cs with
    | ']' :: rest => some ([], rest)
    | _ =>
      match parseVal fuel cs with
      | none => none
      | some (v, rest) =>
        match parseArrMore fuel (skipWs rest) with
        | none => none
        | some (vs, rest2) => some (v :: vs, rest2)

/-- Array continuation: a close bracket or a comma and the next element. -/
def parseArrMore : Nat → List Char → Option (List Json × List Char)
  | 0, _ => none
  | fuel + 1, cs =>
    match cs with
    | ']' :: rest => some ([], rest)
    | ',' :: rest =>
      match parseVal fuel rest with
      | none => none
      | some (v, rest2) =>
        match parseArrMore fuel (skipWs rest2) with
        | none => none
        | some (vs, rest3) => some (v :: vs, rest3)
    | _ => none

/-- Object members after the opening brace (leading whitespace already
skipped): an immediate close or the first key-value pair and its
continuation. -/
def parseObjRest : Nat → List Char → Option (List (String × Json) × List Char)
  | 0, _ => none
  | fuel + 1, cs =>
    match cs with
    | '\x7d' :: rest => some ([], rest)
    | '"' :: rest =>
      match parseStrAux rest with
      | none => none
      | some (k, rest2) =>
        match skipWs rest2 with
        | ':' :: rest3 =>
          match parseVal fuel rest3 with
          | none => none
          | some (v, rest4) =>
            match parseObjMore fuel (skipWs rest4) with
            | none => none
            | some (kvs, rest5) => some ((String.mk k, v) :: kvs, rest5)
        | _ => none
    | _ => none

/-- Object continuation: a close brace or a comma and the next pair. -/
def parseObjMore : Nat → List Char → Option (List (String × Json) × List Char)
  | 0, _ => none
  | fuel + 1, cs =>
    match cs with
    | '\x7d' :: rest => some ([], rest)
    | ',' :: rest =>
      match skipWs rest with
      | '"' :: rest2 =>
        match parseStrAux rest2 with
        | none => none
        | some (k, rest3) =>
          match skipWs rest3 with
          | ':' :: rest4 =>
            match parseVal fuel rest4 with
            | none => none
            | some (v, rest5) =>
              match parseObjMore fuel (skipWs rest5) with
              | none => none
              | some (kvs, rest6) => some ((String.mk k, v) :: kvs, rest6)
          | _ => none
      | _ => none
    | _ => none

end

/-- Embedding of json.loads: parse one JSON document and require that only
whitespace follows it. The fuel bound exceeds the number of recursion
steps any input of this length can take. -/
def loads (s : String) : Option Json :=
  match parseVal (2 * s.length + 4) s.toList with
  | some (v, rest) => if (skipWs rest).isEmpty then some v else none
  | none => none

/-- Python substring membership check: `needle in haystack`, with the
needle matched at the head of the haystack or anywhere further right. -/
def leadMatch : List Char → List Char → Bool
  | [], _ => true
  | _ :: _, [] => false
  | x :: xs, y :: ys => x == y && leadMatch xs ys

/-- Substring search over character lists for the `in` operator. -/
def hasSubList (needle : List Char) : List Char → Bool
  | [] => leadMatch needle []
  | c :: cs => leadMatch needle (c :: cs) || hasSubList needle cs

/-- The Python expression `needle in hay` on strings. -/
def pyIn (needle hay : String) : Bool :=
  hasSubList needle.toList hay.toList

/-- The config files directory fixed in the source. -/
def CONFIG_DIR : String := "/home/algobaba/DATALORE/hypotheis/FMV_SCALPER/configs"

/-- POSIX os.path.join for a directory with no trailing separator. -/
def pathJoin (dir f : String) : String := dir ++ "/" ++ f

/-- The filesystem visible to the config editor, one JSON value per path.
Since json.dump followed by json.load is the identity on JSON values, a
file is modelled by the value it holds. -/
def FS : Type := List (String × Json)

/-- File lookup, also standing in for the os.path.exists check. -/
def fsGet (fs : FS) (p : String) : Option Json :=
  ((fs : List (String × Json)).find? (fun kv => kv.1 == p)).map (fun kv => kv.2)

/-- File overwrite or creation by `open(filepath, 'w')` and json.dump. -/
def fsSet (fs : FS) (p : String) (v : Json) : FS :=
  ((p, v) :: (fs : List (String × Json)).filter (fun kv => !(kv.1 == p)) : List (String × Json))

/-- Filesystem accesses a handler can perform, recorded in order so that
the absence of any access is expressible. -/
inductive FsOp where
  | existsCheck (path : String)
  | openRead (path : String)
  | openWrite (path : String)

/-- Response of the config file read endpoint. -/
inductive ReadResp where
  | ok (filename : String) (content : Json)
  | err (status : Nat) (msg : String)

/-- The read endpoint `get_config_file`: filenames containing a parent
segment or a separator are rejected with status 400 before any filesystem
access; then a missing file gives 404, and otherwise the parsed content is
returned. The JSONDecodeError branch cannot arise in this model because
every stored file holds a JSON value. -/
def get_config_file (fs : FS) (filename : String) : ReadResp × List FsOp :=
  if pyIn ".." filename || pyIn "/" filename then
    (.err 400 "Invalid filename", [])
  else
    let filepath := pathJoin CONFIG_DIR filename
    match fsGet fs filepath with
    | none => (.err 404 "File not found", [.existsCheck filepath])
    | some content => (.ok filename content, [.existsCheck filepath, .openRead filepath])

/-- Response of the config file write endpoint. -/
inductive SaveResp where
  | ok (msg : String)
  | err (status : Nat) (msg : String)

/-- Outcome of the write endpoint: its response, the resulting filesystem,
and the filesystem accesses performed. -/
structure SaveOut where
  resp : SaveResp
  fs : FS
  ops : List FsOp

/-- Result of `data.get('content')` with None-handling: Python None (the
key being absent or holding JSON null) is reported as missing, and a
non-dict body raises AttributeError, caught by the generic handler. -/
inductive ContentLookup where
  | attrError
  | missing
  | found (v : Json)

/-- Lookup of the content field in the request body. -/
def getContentField (d : Json) : ContentLookup :=
  match d with
  | .obj kvs =>
    match (kvs.find? (fun kv => kv.1 == "content")).map (fun kv => kv.2) with
    | none => .missing
    | some Json.null => .missing
    | some v => .found v
  | _ => .attrError

/-- The write endpoint `save_config_file`. The `data` argument is the
result of request.get_json, with Python None modelled as none. Filename
validation precedes everything; string-typed content is passed through
json.loads before the file is opened, so a parse failure returns 400 with
the filesystem untouched; otherwise the value is persisted. -/
def save_config_file (fs : FS) (filename : String) (data : Option Json) : SaveOut :=
  if pyIn ".." filename || pyIn "/" filename then
    ⟨.err 400 "Invalid filename", fs, []⟩
  else
    let filepath := pathJoin CONFIG_DIR filename
    match data with
    | none => ⟨.err 400 "No JSON data provided", fs, []⟩
    | some d =>
      match getContentField d with
      | .attrError => ⟨.err 500 "AttributeError", fs, []⟩
      | .missing => ⟨.err 400 "No content provided", fs, []⟩
      | .found c =>
        match (match c with | .str s => loads s | c2 => some c2) with
        | none => ⟨.err 400 "Invalid JSON", fs, []⟩
        | some content =>
          ⟨.ok ("File " ++ filename ++ " saved successfully"),
           fsSet fs filepath content, [.openWrite filepath]⟩

/-- Normalization contract in amended form, written from the spec words
with the one exception the code forces: date and datetime values become
their ISO-8601 text, a nonzero duration becomes its textual form, a zero
duration becomes None (it is falsy in Python, so the `if value` guard
replaces it), None stays None, and every other value passes unchanged. -/
def normSpecValue : PyValue → PyValue
  | .vNone => .vNone
  | .vDate y m d => .vStr (isoDate y m d)
  | .vDatetime y mo d h mi s => .vStr (isoDatetime y mo d h mi s)
  | .vDelta micros => if micros == 0 then .vNone else .vStr (deltaStr micros)
  | .vStr s => .vStr s
  | .vInt n => .vInt n

/-- Helper: lists of equal length agree on emptiness. -/
theorem isEmpty_eq_of_length_eq {α β : Type} {l1 : List α} {l2 : List β}
    (h : l1.length = l2.length) : l1.isEmpty = l2.isEmpty := by
  cases l1 <;> cases l2 <;> simp_all

/-- Helper: reading back a path just written returns the written value. -/
theorem fsGet_fsSet (fs : FS) (p : String) (v : Json) :
    fsGet (fsSet fs p v) p = some v := by
  simp [fsGet, fsSet, List.find?]

/-- C1: the SQL text built by the orders query builder depends only on
which filters are present and on how many symbols and statuses were
supplied, never on the filter values themselves; every user-supplied value
travels only in the ordered bind-parameter list, so two filter selections
with the same presence pattern and the same symbol and status counts yield
the identical SQL string, whatever the values contain. -/
theorem orders_query_text_filter_independent (f1 f2 : Filters)
    (ha : truthyS f1.account = truthyS f2.account)
    (hd : truthyS f1.date = truthyS f2.date)
    (hs : f1.symbols.length = f2.symbols.length)
    (hst : f1.statuses.length = f2.statuses.length) :
    (ordersQuery f1).1 = (ordersQuery f2).1 := by
  have hse : f1.symbols.isEmpty = f2.symbols.isEmpty := isEmpty_eq_of_length_eq hs
  have hte : f1.statuses.isEmpty = f2.statuses.isEmpty := isEmpty_eq_of_length_eq hst
  simp only [ordersQuery, ha, hd, hs, hst, hse, hte]

/-- Witness for C1 at two concrete filter selections with the same shape,
the second laced with SQL metacharacters. -/
theorem orders_query_text_filter_independent_witness :
    truthyS (some "ACC1") = truthyS (some "x; DROP TABLE shoonya_orders; --") ∧
    (ordersQuery ⟨some "ACC1", some "2024-01-05", ["TCS"], ["COMPLETE"]⟩).1 =
      (ordersQuery ⟨some "x; DROP TABLE shoonya_orders; --",
        some "0); DELETE FROM t; --", ["\" OR 1=1 --"], ["y"]⟩).1 :=
  ⟨rfl, orders_query_text_filter_independent _ _ rfl rfl rfl rfl⟩

/-- C2: the orders listing returns at most 500 records for every filter
selection and every datastore content, by the LIMIT 500 truncation of the
generated statement. -/
theorem orders_listing_capped (db : List Order) (f : Filters) :
    (get_orders db f).length ≤ 500 := by
  unfold get_orders runOrdersQuery
  rw [List.length_map]
  exact List.length_take_le _ _

/-- C3: with account, date, two symbols and one status all supplied, the
generated query ANDs the four conditions onto the base query, uses an IN
clause with one placeholder per supplied symbol and per supplied status,
orders by order_id ascending, and binds exactly the supplied values in
order. -/
theorem orders_query_all_filters_example :
    ordersQuery ⟨some "ACC1", some "2024-01-05", ["TCS", "INFY"], ["COMPLETE"]⟩ =
      (ordersBaseQuery ++ " AND account = %s" ++ " AND DATE(created_at) = %s"
         ++ " AND symbol IN (%s,%s)" ++ " AND status IN (%s)"
         ++ " ORDER BY order_id ASC LIMIT 500",
       ["ACC1", "2024-01-05", "TCS", "INFY", "COMPLETE"]) := rfl

/-- C4: with the account parameter absent, the dates endpoint and the
symbols endpoint both return an empty list with success status 200 and
issue no statement to the datastore. -/
theorem dates_symbols_absent_account_soft_fail (db : List Order) (d : Option String) :
    get_dates db none = ⟨200, [], []⟩ ∧ get_symbols db none d = ⟨200, [], []⟩ :=
  ⟨rfl, rfl⟩

/-- C5: when no row matches the filter selection, the stats endpoint
returns the aggregate row with every count zero, matching the all-zero arm
of the documented alternative; counts are never partial or null. -/
theorem stats_empty_match_zero_counts (db : List Order) (f : Filters)
    (h : db.filter (rowMatches f) = []) :
    get_stats db f = .row ⟨0, 0, 0, 0, 0, 0⟩ := by
  simp [get_stats, statsAggregate, h]

/-- Witness for C5 on an empty datastore. -/
theorem stats_empty_match_zero_counts_witness :
    ([] : List Order).filter (rowMatches ⟨some "ACC1", none, [], []⟩) = [] ∧
    get_stats [] ⟨some "ACC1", none, [], []⟩ = .row ⟨0, 0, 0, 0, 0, 0⟩ :=
  ⟨rfl, stats_empty_match_zero_counts _ _ rfl⟩

/-- C6: any filename containing a parent segment or a separator makes both
the read and the write endpoint answer 400 Invalid filename, with no
filesystem operation performed and the filesystem unchanged. -/
theorem config_traversal_rejected (fs : FS) (filename : String) (data : Option Json)
    (h : (pyIn ".." filename || pyIn "/" filename) = true) :
    get_config_file fs filename = (.err 400 "Invalid filename", []) ∧
    save_config_file fs filename data = ⟨.err 400 "Invalid filename", fs, []⟩ := by
  constructor <;> simp [get_config_file, save_config_file, h]

/-- Witness for C6 at a traversal filename. -/
theorem config_traversal_rejected_witness :
    (pyIn ".." "../secrets" || pyIn "/" "../secrets") = true ∧
    (get_config_file [] "../secrets" = (.err 400 "Invalid filename", []) ∧
      save_config_file [] "../secrets" none = ⟨.err 400 "Invalid filename", [], []⟩) :=
  ⟨rfl, config_traversal_rejected [] "../secrets" none rfl⟩

/-- C7 counterexample: a zero-length duration value is not converted to
its textual form "0:00:00"; the normalizer maps it to None, because a zero
timedelta is falsy in Python and the `str(value) if value else None` guard
takes the else arm. -/
theorem normalize_zero_interval_counterexample :
    normalizeValue (.vDelta 0) ≠ PyValue.vStr (deltaStr 0) ∧
    normalizeValue (.vDelta 0) = PyValue.vNone :=
  ⟨by decide, rfl⟩

/-- C7 amended: the normalizer converts date and timestamp values to their
ISO-8601 text, converts nonzero duration values to their textual form but
maps a zero duration to null, keeps null as null (never the string None),
and passes every other value through unchanged; the orders listing applies
this to every field of every record. -/
theorem normalize_matches_amended_contract :
    (∀ v, normalizeValue v = normSpecValue v) ∧
    (∀ r : List (String × PyValue),
      normalizeRecord r = r.map (fun kv => (kv.1, normSpecValue kv.2))) := by
  have h1 : ∀ v, normalizeValue v = normSpecValue v := by
    intro v
    cases v <;>
      simp [normalizeValue, normSpecValue, isDateOrDatetime, hasTotalSeconds,
        pyTruthy, pyTextOf]
  exact ⟨h1, fun r => by simp [normalizeRecord, h1]⟩

/-- C8 counterexample: for the JSON string value "true", submitting it as
the already-parsed content persists the boolean true (the handler applies
json.loads to every string-typed content), while submitting its JSON
encoding persists the string "true"; the two input shapes give different
persisted content. -/
theorem save_string_content_shapes_counterexample :
    (save_config_file [] "a.json" (some (.obj [("content", Json.str "true")]))).fs ≠
      (save_config_file [] "a.json" (some (.obj [("content", Json.str "\"true\"")]))).fs := by
  have h1 : (save_config_file [] "a.json" (some (.obj [("content", Json.str "true")]))).fs =
      [(pathJoin CONFIG_DIR "a.json", Json.bool true)] := rfl
  have h2 : (save_config_file [] "a.json" (some (.obj [("content", Json.str "\"true\"")]))).fs =
      [(pathJoin CONFIG_DIR "a.json", Json.str "true")] := rfl
  rw [h1, h2]
  intro hcc
  injection hcc with hpair htail
  injection hpair with hkey hcontent
  exact Json.noConfusion hcontent

/-- C8 amended: for every valid filename and every JSON value v that is
neither a string nor null, submitting v as the parsed content and
submitting a JSON-encoded string that parses to v produce identical
outcomes, in particular identical persisted file content; a string-typed
content is instead itself parsed as JSON before persisting. -/
theorem save_content_shape_equivalence (fs : FS) (filename : String) (v : Json) (s : String)
    (hval : (pyIn ".." filename || pyIn "/" filename) = false)
    (hnotstr : ∀ t, v ≠ .str t) (hnotnull : v ≠ .null)
    (hparse : loads s = some v) :
    save_config_file fs filename (some (.obj [("content", v)])) =
      save_config_file fs filename (some (.obj [("content", .str s)])) := by
  have hr : save_config_file fs filename (some (.obj [("content", .str s)])) =
      ⟨.ok ("File " ++ filename ++ " saved successfully"),
        fsSet fs (pathJoin CONFIG_DIR filename) v,
        [.openWrite (pathJoin CONFIG_DIR filename)]⟩ := by
    simp [save_config_file, hval, getContentField, hparse]
  rw [hr]
  cases v with
  | null => exact absurd rfl hnotnull
  | str t => exact absurd rfl (hnotstr t)
  | bool b => simp [save_config_file, hval, getContentField]
  | num n => simp [save_config_file, hval, getContentField]
  | arr xs => simp [save_config_file, hval, getContentField]
  | obj kvs => simp [save_config_file, hval, getContentField]

/-- Witness for the amended C8 at the boolean value true. -/
theorem save_content_shape_equivalence_witness :
    (pyIn ".." "a.json" || pyIn "/" "a.json") = false ∧
    loads "true" = some (Json.bool true) ∧
    save_config_file [] "a.json" (some (.obj [("content", Json.bool true)])) =
      save_config_file [] "a.json" (some (.obj [("content", Json.str "true")])) :=
  ⟨rfl, rfl, save_content_shape_equivalence [] "a.json" (Json.bool true) "true" rfl
    (fun _ h => Json.noConfusion h) (fun h => Json.noConfusion h) rfl⟩

/-- C9 counterexample: writing the JSON string value "true" and reading it
back does not return the value written; the write handler re-parses
string-typed content, so the read returns the boolean true. -/
theorem config_roundtrip_counterexample :
    (get_config_file
        (save_config_file [] "a.json" (some (.obj [("content", Json.str "true")]))).fs
        "a.json").1 ≠ ReadResp.ok "a.json" (Json.str "true") ∧
    (get_config_file
        (save_config_file [] "a.json" (some (.obj [("content", Json.str "true")]))).fs
        "a.json").1 = ReadResp.ok "a.json" (Json.bool true) := by
  have h : (get_config_file
      (save_config_file [] "a.json" (some (.obj [("content", Json.str "true")]))).fs
      "a.json").1 = ReadResp.ok "a.json" (Json.bool true) := rfl
  rw [h]
  exact ⟨by simp, rfl⟩

/-- C9 amended: for every valid filename and every JSON value that is
neither a string nor null, writing it through the save endpoint and
reading it back through the read endpoint returns exactly the value
written; string values are instead re-parsed as JSON by the write
handler. -/
theorem config_roundtrip (fs : FS) (filename : String) (v : Json)
    (hval : (pyIn ".." filename || pyIn "/" filename) = false)
    (hnotstr : ∀ t, v ≠ .str t) (hnotnull : v ≠ .null) :
    (get_config_file
        (save_config_file fs filename (some (.obj [("content", v)]))).fs
        filename).1 = .ok filename v := by
  have hsave : (save_config_file fs filename (some (.obj [("content", v)]))).fs =
      fsSet fs (pathJoin CONFIG_DIR filename) v := by
    cases v with
    | null => exact absurd rfl hnotnull
    | str t => exact absurd rfl (hnotstr t)
    | bool b => simp [save_config_file, hval, getContentField]
    | num n => simp [save_config_file, hval, getContentField]
    | arr xs => simp [save_config_file, hval, getContentField]
    | obj kvs => simp [save_config_file, hval, getContentField]
  rw [hsave]
  simp [get_config_file, hval, fsGet_fsSet]

/-- Witness for the amended C9 at a small array value. -/
theorem config_roundtrip_witness :
    (pyIn ".." "a.json" || pyIn "/" "a.json") = false ∧
    (get_config_file
        (save_config_file [] "a.json"
          (some (.obj [("content", Json.arr [Json.num 1, Json.bool true])]))).fs
        "a.json").1 = .ok "a.json" (Json.arr [Json.num 1, Json.bool true]) :=
  ⟨rfl, config_roundtrip [] "a.json" (Json.arr [Json.num 1, Json.bool true]) rfl
    (fun _ h => Json.noConfusion h) (fun h => Json.noConfusion h)⟩

/-- C10: when the submitted content is a string that is not valid JSON,
the write endpoint answers 400 Invalid JSON, performs no filesystem
operation, and leaves the filesystem unchanged, because json.loads runs
before the file is opened for writing. -/
theorem save_malformed_string_atomic (fs : FS) (filename : String) (s : String)
    (hval : (pyIn ".." filename || pyIn "/" filename) = false)
    (hbad : loads s = none) :
    save_config_file fs filename (some (.obj [("content", .str s)])) =
      ⟨.err 400 "Invalid JSON", fs, []⟩ := by
  simp [save_config_file, hval, getContentField, hbad]

/-- Witness for C10 at an unparsable content string. -/
theorem save_malformed_string_atomic_witness :
    loads "hello" = none ∧
    save_config_file [] "a.json" (some (.obj [("content", Json.str "hello")])) =
      ⟨.err 400 "Invalid JSON", [], []⟩ :=
  ⟨rfl, save_malformed_string_atomic [] "a.json" "hello" rfl rfl⟩

end Heimdall
